import Mathlib

/-!
Shallow embedding of the proxy-rotating request executor of `src/main.py`
(Instagram API service): the proxy pool cache (`get_cached_proxies`,
`fetch_proxies`), the blacklist store (`BLACKLISTED_PROXIES`), the proxy
selector (`get_random_proxy`), the request executor
(`make_request_with_proxy`) and the `/user/{username}` pipeline
(`get_user_id`, `user_info`).

Python mutable state (the module-level blacklist set and the
`lru_cache(maxsize=1)` backing `get_cached_proxies`) is passed explicitly as
a `SysState`.  Network I/O and randomness are oracles supplied by the
caller: `httpx` responses become an `AttemptOutcome` per attempt,
`random.choice` becomes an index supplied per attempt, and the wall-clock
bucket `int(now/1800)` becomes a `Nat` supplied per call.
-/

/-- A proxy endpoint, a plain host:port string (main.py stores proxies as
strings). -/
abbrev Proxy := String

/-- The process-wide mutable state of main.py: `BLACKLISTED_PROXIES`
(a set of strings, modelled as a duplicate-free-by-construction list) and
the `lru_cache(maxsize=1)` of `get_cached_proxies`, which holds at most one
entry `(timestamp, proxies)`. -/
structure SysState where
  blacklist : List Proxy
  cache : Option (Nat × List Proxy)
deriving Repr, DecidableEq

/-- Python `set.add`: insert `p` if not already present (main.py line 99 /
112, `BLACKLISTED_PROXIES.add(proxy)`). -/
def blacklistAdd (b : List Proxy) (p : Proxy) : List Proxy :=
  if p ∈ b then b else b ++ [p]

/-- main.py lines 23-26: `get_cached_proxies(timestamp)` under
`lru_cache(maxsize=1)`.  A hit on the stored key returns the stored list;
a miss evaluates the body (which returns a fresh empty list), stores it
under the new key and evicts the previous entry. -/
def get_cached_proxies (s : SysState) (timestamp : Nat) : List Proxy × SysState :=
  match s.cache with
  | some (t, l) =>
      if t = timestamp then (l, s)
      else ([], { s with cache := some (timestamp, []) })
  | none => ([], { s with cache := some (timestamp, []) })

/-- main.py line 50 / 221: `get_cached_proxies.cache_clear()`. -/
def cache_clear (s : SysState) : SysState := { s with cache := none }

/-- Python `text.split` on a one-character separator, embedded over the
character list: splits at every newline, keeping empty pieces. -/
def splitOnNl : List Char → List (List Char)
  | [] => [[]]
  | c :: cs =>
      if c = '\n' then [] :: splitOnNl cs
      else
        match splitOnNl cs with
        | [] => [[c]]
        | h :: t => (c :: h) :: t

/-- Python `str.strip`, embedded over the character list: drop whitespace
from both ends. -/
def pyStrip (l : List Char) : List Char :=
  ((l.dropWhile Char.isWhitespace).reverse.dropWhile Char.isWhitespace).reverse

/-- The stripped line as a string. -/
def stripped (line : List Char) : String := String.mk (pyStrip line)

/-- main.py line 46: the list comprehension
`[line.strip() for line in response.text.split('\n')
  if line.strip() and line.strip() not in BLACKLISTED_PROXIES]`
(`line.strip()` in boolean position is the non-empty test). -/
def parse_proxies (text : String) (blacklist : List Proxy) : List Proxy :=
  ((splitOnNl text.data).filter
      (fun line => stripped line ≠ "" ∧ stripped line ∉ blacklist)).map stripped

/-- main.py lines 28-56: `fetch_proxies`.  `cache_timestamp` is the oracle
for `int(datetime.now().timestamp() / 1800)`; `fetched` is the oracle for
the `httpx` GET of the proxy list: `.ok text` is a response whose
`raise_for_status()` passed, `.error msg` is any exception raised inside
the `try` block (transport failure or bad status), which main.py catches
and turns into an empty result. -/
def fetch_proxies (s : SysState) (cache_timestamp : Nat)
    (fetched : Except String String) : List Proxy × SysState :=
  let res := get_cached_proxies s cache_timestamp
  let cached_proxies := res.1
  let s1 := res.2
  if cached_proxies ≠ [] then (cached_proxies, s1)
  else
    match fetched with
    | .ok text =>
        let proxies := parse_proxies text s1.blacklist
        -- get_cached_proxies.cache_clear(); then the call
        -- get_cached_proxies(cache_timestamp) stores a fresh empty list
        -- under the key, and .extend(proxies) mutates it in place.
        let s2 := cache_clear s1
        let res2 := get_cached_proxies s2 cache_timestamp
        let s3 := { res2.2 with cache := some (cache_timestamp, res2.1 ++ proxies) }
        (proxies, s3)
    | .error _ => ([], s1)

/-- main.py lines 58-65: `get_random_proxy`.  `bucket` is the oracle for
`int(datetime.now().timestamp() / 1800)`; `pick` is the oracle for
`random.choice`, reduced modulo the length of the available list so that
every choice the Python code can make is covered. -/
def get_random_proxy (s : SysState) (bucket : Nat) (pick : Nat) :
    Option Proxy × SysState :=
  let res := get_cached_proxies s bucket
  let proxies := res.1
  let s1 := res.2
  let available_proxies := proxies.filter (fun p => p ∉ s1.blacklist)
  match available_proxies with
  | [] => (none, s1)
  | a :: rest =>
      (some ((a :: rest).get ⟨pick % (a :: rest).length, Nat.mod_lt _ (Nat.succ_pos _)⟩), s1)

/-- The outcome the network oracle assigns to one attempt of the executor
(the `httpx` call plus `response.json()` in main.py lines 86-107):
`resp status errMsg decoded` is a response; `errMsg` is the text
`str(HTTPStatusError)` that `raise_for_status()` would raise for a non-2xx
status, and `decoded` is either the decoded JSON body or the text of the
exception `response.json()` raises.  `exn msg` is any other exception from
the attempt (transport error, timeout, proxy unreachable), with
`msg = str(e)`. -/
inductive AttemptOutcome (α : Type) where
  | resp (status : Nat) (errMsg : String) (decoded : Except String α)
  | exn (msg : String)

/-- Per-call oracle for `make_request_with_proxy`: for the iteration with
loop counter `attempt`, `bucket attempt` is the wall-clock bucket seen by
`get_random_proxy`, `pick attempt` drives `random.choice`, and
`outcome attempt` is what the network returns. -/
structure Env (α : Type) where
  bucket : Nat → Nat
  pick : Nat → Nat
  outcome : Nat → AttemptOutcome α

/-- The terminal failure of the executor, main.py lines 123-135: the
`HTTPException(status_code=401, ...)` whose detail carries the used proxies
and the error list, or the generic
`HTTPException(status_code=500, detail=f"All requests failed after ...")`
carrying the attempt count and the error list. -/
inductive Failure where
  | authFailed (blacklisted_proxies : List Proxy) (errors : List String)
  | allFailed (max_attempts : Nat) (errors : List String)
deriving Repr, DecidableEq

/-- The HTTP status code of the `HTTPException` raised for a terminal
failure (main.py line 126 and line 135). -/
def Failure.status_code : Failure → Nat
  | .authFailed _ _ => 401
  | .allFailed _ _ => 500

/-- The `detail` payload of the raised `HTTPException`, flattened to a
string (the auth variant serialises its dict). -/
def Failure.detail : Failure → String
  | .authFailed ps errs =>
      "Authentication failed with Instagram API; blacklisted_proxies: " ++
        String.intercalate ", " ps ++ "; errors: " ++ String.intercalate ", " errs
  | .allFailed n errs =>
      "All requests failed after " ++ toString n ++ " attempts: " ++
        String.intercalate ", " errs

/-- main.py line 100 / 113: the error recorded when a proxied attempt gets
an HTTP 401. -/
def msg401Proxy (p : Proxy) : String :=
  "Proxy " ++ p ++ " returned 401 Unauthorized and has been blacklisted"

/-- main.py line 102: the error recorded when a direct attempt gets an
HTTP 401. -/
def msg401NoProxy : String := "401 Unauthorized error without proxy"

/-- Bool version of: the character list `needle` occurs at the head of
`hay` (used to embed the Python substring operator). -/
def charsStartWith : List Char → List Char → Bool
  | [], _ => true
  | _ :: _, [] => false
  | n :: ns, h :: hs => n == h && charsStartWith ns hs

/-- Bool version of: the character list `needle` occurs somewhere inside
`hay`. -/
def charsContain (needle : List Char) : List Char → Bool
  | [] => charsStartWith needle []
  | h :: hs => charsStartWith needle (h :: hs) || charsContain needle hs

/-- main.py line 124: the Python test `"401 Unauthorized" in error`. -/
def contains401 (error : String) : Bool :=
  charsContain "401 Unauthorized".data error.data

/-- The evolving per-call state of the executor loop: the shared system
state plus the local `errors` and `used_proxies` accumulators of
main.py lines 71-72, and a log of attempt records (proxy used, outcome)
that the Python code keeps only implicitly. -/
structure RunState (α : Type) where
  sys : SysState
  errors : List String
  used_proxies : List Proxy
  log : List (Option Proxy × AttemptOutcome α)

/-- main.py lines 123-135: the terminal classification after the loop:
auth-flavored when every recorded error contains the substring
"401 Unauthorized" and `used_proxies` is non-empty, generic otherwise. -/
def terminalFailure (α : Type) (rs : RunState α) : Failure :=
  if (rs.errors.all contains401) ∧ rs.used_proxies ≠ [] then
    .authFailed rs.used_proxies rs.errors
  else
    .allFailed 3 rs.errors

/-- One iteration of the `while attempt < max_attempts` loop of
`make_request_with_proxy` (main.py lines 74-121): select a proxy, record
it in `used_proxies` if any, run the attempt through the network oracle,
and classify: a 401 blacklists the proxy (if any) and records a 401 error;
a non-2xx status records the `raise_for_status` message; a 2xx body that
fails to decode records the decode message; any other exception records
its message; a 2xx body that decodes is returned at once (`some body`,
the only success exit, line 107). -/
def stepAttempt {α : Type} (env : Env α) (attempt : Nat) (rs : RunState α) :
    Option α × RunState α :=
  let sel := get_random_proxy rs.sys (env.bucket attempt) (env.pick attempt)
  let proxy := sel.1
  let used_proxies :=
    match proxy with
    | some p => rs.used_proxies ++ [p]
    | none => rs.used_proxies
  let oc := env.outcome attempt
  let rs1 : RunState α :=
    { rs with sys := sel.2, used_proxies := used_proxies,
              log := rs.log ++ [(proxy, oc)] }
  match oc with
  | .resp status errMsg decoded =>
      if status = 401 then
        match proxy with
        | some p =>
            (none, { rs1 with
                       sys := { rs1.sys with
                                  blacklist := blacklistAdd rs1.sys.blacklist p },
                       errors := rs1.errors ++ [msg401Proxy p] })
        | none =>
            (none, { rs1 with errors := rs1.errors ++ [msg401NoProxy] })
      else if 200 ≤ status ∧ status < 300 then
        match decoded with
        | .ok body => (some body, rs1)
        | .error m => (none, { rs1 with errors := rs1.errors ++ [m] })
      else
        (none, { rs1 with errors := rs1.errors ++ [errMsg] })
  | .exn m => (none, { rs1 with errors := rs1.errors ++ [m] })

/-- main.py lines 74-135: the retry loop of `make_request_with_proxy`.
`fuel = max_attempts - attempt` counts the remaining iterations; each
iteration is one `stepAttempt`; when the fuel runs out the terminal
failure of lines 123-135 is raised. -/
def runLoop {α : Type} (env : Env α) : Nat → Nat → RunState α →
    Except Failure α × RunState α
  | 0, _, rs => (.error (terminalFailure α rs), rs)
  | fuel + 1, attempt, rs =>
      match stepAttempt env attempt rs with
      | (some body, rs1) => (.ok body, rs1)
      | (none, rs1) => runLoop env fuel (attempt + 1) rs1

/-- main.py lines 67-135: `make_request_with_proxy`.  The target url,
headers and query params only parametrise the network call, which the
oracle `env.outcome` stands for, so they do not appear separately.
`max_attempts = 3` (line 69); `attempt` starts at 0 and the accumulators
start empty (lines 70-72). -/
def make_request_with_proxy {α : Type} (env : Env α) (s : SysState) :
    Except Failure α × RunState α :=
  runLoop env 3 0 { sys := s, errors := [], used_proxies := [], log := [] }

/-- The attempt record that `stepAttempt env attempt rs` appends to the
log: the selected proxy (or none) and the network outcome. -/
def attemptRecord {α : Type} (env : Env α) (attempt : Nat) (rs : RunState α) :
    Option Proxy × AttemptOutcome α :=
  ((get_random_proxy rs.sys (env.bucket attempt) (env.pick attempt)).1,
    env.outcome attempt)

/-- An attempt outcome is a success exactly when it is a 2xx response
whose body decodes (main.py lines 106-107). -/
def attemptSucceedsB {α : Type} : AttemptOutcome α → Bool
  | .resp status _ (.ok _) => decide (200 ≤ status ∧ status < 300)
  | _ => false

/-- An attempt record is a 401 received through a proxy (the outcome that
blacklists, main.py lines 95-100). -/
def rec401ViaProxyB {α : Type} : Option Proxy × AttemptOutcome α → Bool
  | (some _, .resp status _ _) => status == 401
  | _ => false

/-- The error message main.py appends for a failed attempt record. -/
def recordedError {α : Type} : Option Proxy × AttemptOutcome α → String
  | (proxy, .resp status errMsg decoded) =>
      if status = 401 then
        match proxy with
        | some p => msg401Proxy p
        | none => msg401NoProxy
      else if 200 ≤ status ∧ status < 300 then
        match decoded with
        | .ok _ => ""
        | .error m => m
      else errMsg
  | (_, .exn m) => m

/-- The error raised by `get_user_id` (main.py lines 149-160) and passed
through by the `/user/{username}` route: either a re-raised
`HTTPException` from the executor (preserving its status code, line 158)
or the 500 raised on a shape error (line 160). -/
inductive UserInfoError where
  | http (f : Failure)
  | shape (msg : String)
deriving Repr, DecidableEq

/-- Status code of the `HTTPException` the route surfaces. -/
def UserInfoError.status_code : UserInfoError → Nat
  | .http f => f.status_code
  | .shape _ => 500

/-- main.py lines 137-160: `get_user_id`.  `fetch_bucket` and `fetched`
are the oracles for the `fetch_proxies()` call on line 151; `dataField` is
the oracle for the subscription `data["data"]` on line 155 (`.error m`
means a `KeyError` with text `m`). -/
def get_user_id {α : Type} (env : Env α) (s : SysState) (fetch_bucket : Nat)
    (fetched : Except String String) (dataField : α → Except String α) :
    Except UserInfoError α × RunState α :=
  let s1 := (fetch_proxies s fetch_bucket fetched).2
  match make_request_with_proxy env s1 with
  | (.ok data, rs) =>
      match dataField data with
      | .ok d => (.ok d, rs)
      | .error m => (.error (.shape ("Failed to get user data: " ++ m)), rs)
  | (.error f, rs) => (.error (.http f), rs)

/-- main.py lines 201-204: the `/user/{username}` route body is exactly
`get_user_id`, and a raised `HTTPException` propagates to the client with
its own status code and detail. -/
def user_info {α : Type} (env : Env α) (s : SysState) (fetch_bucket : Nat)
    (fetched : Except String String) (dataField : α → Except String α) :
    Except UserInfoError α × RunState α :=
  get_user_id env s fetch_bucket fetched dataField

/-- The operations of the system that touch the shared state: a pool
fetch (`fetch_proxies`, also the startup hook, line 228), a proxy
selection (`get_random_proxy`), an executor run
(`make_request_with_proxy`) and the manual `/refresh-proxies` endpoint
(lines 218-223: `cache_clear` then `fetch_proxies`).  The two data routes
are compositions of these. -/
inductive SysOp (α : Type) where
  | fetchOp (bucket : Nat) (fetched : Except String String)
  | selectOp (bucket : Nat) (pick : Nat)
  | requestOp (env : Env α)
  | refreshOp (bucket : Nat) (fetched : Except String String)

/-- Applying one operation to the shared state; the second component is
the list of attempt records the operation performed (empty for the
non-executor operations, which make no upstream attempts). -/
def SysOp.apply {α : Type} :
    SysOp α → SysState → SysState × List (Option Proxy × AttemptOutcome α)
  | .fetchOp b f, s => ((fetch_proxies s b f).2, [])
  | .selectOp b p, s => ((get_random_proxy s b p).2, [])
  | .requestOp env, s =>
      let r := make_request_with_proxy env s
      (r.2.sys, r.2.log)
  | .refreshOp b f, s => ((fetch_proxies (cache_clear s) b f).2, [])

/-- Folding a sequence of operations over the shared state. -/
def applyOps {α : Type} : List (SysOp α) → SysState → SysState
  | [], s => s
  | op :: rest, s => applyOps rest (op.apply s).1

/-- An attempt outcome that carries HTTP status 401 (whether or not a
proxy was in use). -/
def is401OutcomeB {α : Type} : AttemptOutcome α → Bool
  | .resp status _ _ => status == 401
  | _ => false

/-- The parse pipeline exactly as the spec words it: split the body on
line breaks, trim each line, drop empty lines, and drop lines present in
the blacklist.  Compared against `parse_proxies`, which is translated from
the code. -/
def specFetchedPool (text : String) (blacklist : List Proxy) : List Proxy :=
  ((splitOnNl text.data).map stripped).filter
    (fun t => t ≠ "" ∧ t ∉ blacklist)

/-- Fixture: a state whose current-bucket pool holds three proxies and
whose blacklist is empty. -/
def fixturePool : SysState :=
  { blacklist := [],
    cache := some (0, ["1.1.1.1:80", "2.2.2.2:80", "3.3.3.3:80"]) }

/-- Fixture: a state whose current-bucket pool holds one proxy. -/
def fixturePool1 : SysState :=
  { blacklist := [], cache := some (0, ["1.1.1.1:80"]) }

/-- Fixture: a state with an empty cache (process start). -/
def fixtureEmptyCache : SysState := { blacklist := [], cache := none }

/-- Fixture: a state whose current-bucket pool was fetched and stored
empty (e.g. the fetched list was entirely blacklisted). -/
def fixtureStoredEmpty : SysState := { blacklist := [], cache := some (0, []) }

/-- Fixture: a state whose only pooled proxy is already blacklisted. -/
def fixtureAllBlack : SysState :=
  { blacklist := ["1.1.1.1:80"], cache := some (0, ["1.1.1.1:80"]) }

/-- Fixture: an empty cache with a non-empty blacklist, for the fetch
filter. -/
def fixtureBlack : SysState := { blacklist := ["2.2.2.2:80"], cache := none }

/-- Fixture oracle: every attempt returns HTTP 401 with an undecodable
body. -/
def env401 : Env Nat :=
  { bucket := fun _ => 0, pick := fun _ => 0,
    outcome := fun _ => .resp 401 "x" (.error "y") }

/-- Fixture oracle: every attempt returns a decodable 200 response. -/
def envOK : Env Nat :=
  { bucket := fun _ => 0, pick := fun _ => 0,
    outcome := fun _ => .resp 200 "" (.ok 7) }

/-- Fixture oracle: every attempt fails with a transport error. -/
def envTransport : Env Nat :=
  { bucket := fun _ => 0, pick := fun _ => 0,
    outcome := fun _ => .exn "connection refused" }

/-- get_cached_proxies only touches the cache, never the blacklist. -/
theorem get_cached_proxies_blacklist (s : SysState) (t : Nat) :
    ((get_cached_proxies s t).2).blacklist = s.blacklist := by
  unfold get_cached_proxies
  rcases s.cache with _ | ⟨u, l⟩
  · rfl
  · dsimp only
    split <;> rfl

/-- get_random_proxy returns the state get_cached_proxies leaves. -/
theorem get_random_proxy_state (s : SysState) (b p : Nat) :
    (get_random_proxy s b p).2 = (get_cached_proxies s b).2 := by
  unfold get_random_proxy
  dsimp only
  split <;> rfl

theorem blacklistAdd_eq_append (b : List Proxy) (p : Proxy) :
    ∃ extra, blacklistAdd b p = b ++ extra ∧ ∀ q ∈ extra, q = p := by
  unfold blacklistAdd
  split
  · exact ⟨[], by simp⟩
  · exact ⟨[p], rfl, by simp⟩

theorem mem_blacklistAdd_self (b : List Proxy) (p : Proxy) :
    p ∈ blacklistAdd b p := by
  unfold blacklistAdd
  split
  · assumption
  · simp

theorem charsContain_append_right (n : List Char) (a b : List Char)
    (h : charsContain n b = true) : charsContain n (a ++ b) = true := by
  induction a with
  | nil => simpa using h
  | cons x xs ih =>
      simp only [List.cons_append, charsContain, Bool.or_eq_true]
      right
      exact ih

/-- The error recorded for a 401 through a proxy passes the substring test
of main.py line 124. -/
theorem contains401_msg401Proxy (p : Proxy) :
    contains401 (msg401Proxy p) = true := by
  unfold contains401 msg401Proxy
  rw [String.data_append, String.data_append]
  exact charsContain_append_right _ _ _ (by decide)

/-- The error recorded for a 401 on a direct attempt also passes the
substring test of main.py line 124. -/
theorem contains401_msg401NoProxy : contains401 msg401NoProxy = true := by
  decide

/-- Behaviour of one loop iteration: it appends exactly one attempt record
to the log, appends the selected proxy (if any) to `used_proxies`, fails
exactly when the outcome is not a decodable 2xx, appends exactly one error
message on failure and none on success, grows the blacklist only with the
proxy of a 401-via-proxy record, and blacklists that proxy. -/
theorem stepAttempt_spec {α : Type} (env : Env α) (a : Nat) (rs : RunState α) :
    (stepAttempt env a rs).2.log = rs.log ++ [attemptRecord env a rs] ∧
    (stepAttempt env a rs).2.used_proxies
      = rs.used_proxies ++ (attemptRecord env a rs).1.toList ∧
    ((stepAttempt env a rs).1 = none ↔
      attemptSucceedsB (attemptRecord env a rs).2 = false) ∧
    ((stepAttempt env a rs).1 = none →
      (stepAttempt env a rs).2.errors
        = rs.errors ++ [recordedError (attemptRecord env a rs)]) ∧
    (∀ b, (stepAttempt env a rs).1 = some b →
      (stepAttempt env a rs).2.errors = rs.errors) ∧
    (∃ extra, (stepAttempt env a rs).2.sys.blacklist
        = rs.sys.blacklist ++ extra ∧
      ∀ q ∈ extra, (attemptRecord env a rs).1 = some q ∧
        rec401ViaProxyB (attemptRecord env a rs) = true) ∧
    (∀ p, (attemptRecord env a rs).1 = some p →
      rec401ViaProxyB (attemptRecord env a rs) = true →
      p ∈ (stepAttempt env a rs).2.sys.blacklist) := by
  have hbl : ((get_random_proxy rs.sys (env.bucket a) (env.pick a)).2).blacklist
      = rs.sys.blacklist := by
    rw [get_random_proxy_state, get_cached_proxies_blacklist]
  unfold stepAttempt attemptRecord
  dsimp only
  rcases hoc : env.outcome a with ⟨st, em, dec⟩ | m <;>
    rcases hsel : (get_random_proxy rs.sys (env.bucket a) (env.pick a)).1 with _ | p <;>
    simp only [hoc, hsel]
  · -- response outcome, no proxy selected
    by_cases h401 : st = 401
    · subst h401
      rcases dec with m2 | b <;>
        simp [recordedError, attemptSucceedsB, rec401ViaProxyB, hbl]
    · by_cases h2xx : 200 ≤ st ∧ st < 300
      · rcases dec with m2 | b <;>
          simp [recordedError, attemptSucceedsB, rec401ViaProxyB, hbl, h401, h2xx]
      · rcases dec with m2 | b <;>
          simp [recordedError, attemptSucceedsB, rec401ViaProxyB, hbl, h401, h2xx]
  · -- response outcome, proxy p selected
    by_cases h401 : st = 401
    · subst h401
      rcases dec with m2 | b <;>
        simp [recordedError, attemptSucceedsB, rec401ViaProxyB, hbl, blacklistAdd_eq_append,
          mem_blacklistAdd_self] <;>
        · obtain ⟨extra, hex, hq⟩ := blacklistAdd_eq_append rs.sys.blacklist p
          exact ⟨extra, hex, fun q hqm => (hq q hqm).symm⟩
    · by_cases h2xx : 200 ≤ st ∧ st < 300
      · rcases dec with m2 | b <;>
          simp [recordedError, attemptSucceedsB, rec401ViaProxyB, hbl, h401, h2xx]
      · rcases dec with m2 | b <;>
          simp [recordedError, attemptSucceedsB, rec401ViaProxyB, hbl, h401, h2xx]
  · -- transport exception, no proxy selected
    simp [recordedError, attemptSucceedsB, rec401ViaProxyB, hbl]
  · -- transport exception, proxy p selected
    simp [recordedError, attemptSucceedsB, rec401ViaProxyB, hbl]

theorem filterMapFst_cons {α : Type} (rec : Option Proxy × AttemptOutcome α)
    (l : List (Option Proxy × AttemptOutcome α)) :
    (rec :: l).filterMap Prod.fst = rec.1.toList ++ l.filterMap Prod.fst := by
  rcases rec with ⟨o, oc⟩
  rcases o with _ | p <;> simp [List.filterMap_cons]

/-- Invariant of the retry loop, by induction on the remaining fuel: the
run extends the log by at most `fuel` records; `used_proxies` collects
exactly the proxies of those records; the blacklist grows only by proxies
of 401-via-proxy records and contains the proxy of every such record; a
terminal failure happens exactly after `fuel` failed attempts and is the
classification of lines 123-135 over the accumulated errors, which are
exactly the recorded errors of the failed attempts; a success is the first
decodable-2xx attempt and adds no error. -/
theorem runLoop_master {α : Type} (env : Env α) (fuel : Nat) :
    ∀ (attempt : Nat) (rs : RunState α),
    ∃ nl : List (Option Proxy × AttemptOutcome α),
      (runLoop env fuel attempt rs).2.log = rs.log ++ nl ∧
      nl.length ≤ fuel ∧
      (runLoop env fuel attempt rs).2.used_proxies
        = rs.used_proxies ++ nl.filterMap Prod.fst ∧
      (∃ extra, (runLoop env fuel attempt rs).2.sys.blacklist
          = rs.sys.blacklist ++ extra ∧
        ∀ q ∈ extra, ∃ rec ∈ nl, rec.1 = some q ∧ rec401ViaProxyB rec = true) ∧
      (∀ rec ∈ nl, ∀ p, rec.1 = some p → rec401ViaProxyB rec = true →
        p ∈ (runLoop env fuel attempt rs).2.sys.blacklist) ∧
      (∀ f, (runLoop env fuel attempt rs).1 = .error f →
        nl.length = fuel ∧
        (∀ rec ∈ nl, attemptSucceedsB rec.2 = false) ∧
        (runLoop env fuel attempt rs).2.errors = rs.errors ++ nl.map recordedError ∧
        f = terminalFailure α (runLoop env fuel attempt rs).2) ∧
      (∀ b, (runLoop env fuel attempt rs).1 = .ok b →
        ∃ nl₀ recS, nl = nl₀ ++ [recS] ∧ attemptSucceedsB recS.2 = true ∧
          (∀ rec ∈ nl₀, attemptSucceedsB rec.2 = false) ∧
          (runLoop env fuel attempt rs).2.errors
            = rs.errors ++ nl₀.map recordedError) := by
  induction fuel with
  | zero =>
      intro attempt rs
      refine ⟨[], by simp [runLoop], by simp, by simp [runLoop], ⟨[], by simp [runLoop], by simp⟩,
        by simp, ?_, ?_⟩
      · intro f hf
        simp only [runLoop] at hf ⊢
        refine ⟨rfl, by simp, by simp, ?_⟩
        injection hf with h
        exact h.symm
      · intro b hb
        simp [runLoop] at hb
  | succ fuel ih =>
      intro attempt rs
      obtain ⟨hlog, hused, hiff, herrN, herrS, ⟨extra1, hbl1, hex1⟩, hmem1⟩ :=
        stepAttempt_spec env attempt rs
      rcases hstep : stepAttempt env attempt rs with ⟨o, rs1⟩
      simp only [hstep] at hlog hused hiff herrN herrS hbl1 hmem1
      cases o with
      | some body =>
          refine ⟨[attemptRecord env attempt rs], ?_, by simp, ?_, ?_, ?_, ?_, ?_⟩
          · simp only [runLoop, hstep]
            exact hlog
          · simp only [runLoop, hstep]
            rw [hused, filterMapFst_cons]
            simp
          · simp only [runLoop, hstep]
            exact ⟨extra1, hbl1, fun q hq => ⟨attemptRecord env attempt rs, by simp, hex1 q hq⟩⟩
          · simp only [runLoop, hstep]
            intro rec hrec p hp h401
            simp at hrec
            subst hrec
            exact hmem1 p hp h401
          · intro f hf
            simp only [runLoop, hstep] at hf
            cases hf
          · intro b hb
            simp only [runLoop, hstep] at hb ⊢
            injection hb with hb1
            have hB : attemptSucceedsB (attemptRecord env attempt rs).2 = true := by
              rcases hBc : attemptSucceedsB (attemptRecord env attempt rs).2
              · exact absurd (hiff.mpr hBc) (by simp)
              · rfl
            exact ⟨[], attemptRecord env attempt rs, by simp, hB, by simp,
              by simpa using herrS body rfl⟩
      | none =>
          obtain ⟨nl', hlog', hlen', hused', ⟨extra', hbl', hex'⟩, hmem', herr', hok'⟩ :=
            ih (attempt + 1) rs1
          refine ⟨attemptRecord env attempt rs :: nl', ?_, ?_, ?_, ?_, ?_, ?_, ?_⟩
          · simp only [runLoop, hstep]
            rw [hlog', hlog]
            simp
          · simpa using Nat.succ_le_succ hlen'
          · simp only [runLoop, hstep]
            rw [hused', hused, filterMapFst_cons]
            simp
          · simp only [runLoop, hstep]
            refine ⟨extra1 ++ extra', by rw [hbl', hbl1]; simp, ?_⟩
            intro q hq
            rcases List.mem_append.mp hq with h1 | h2
            · exact ⟨attemptRecord env attempt rs, by simp, hex1 q h1⟩
            · obtain ⟨rec, hrec, hprop⟩ := hex' q h2
              exact ⟨rec, by simp [hrec], hprop⟩
          · simp only [runLoop, hstep]
            intro rec hrec p hp h401
            rcases List.mem_cons.mp hrec with h1 | h2
            · subst h1
              rw [hbl']
              exact List.mem_append_left _ (hmem1 p hp h401)
            · exact hmem' rec h2 p hp h401
          · intro f hf
            simp only [runLoop, hstep] at hf
            obtain ⟨hlen'', hfail'', herr'', hterm''⟩ := herr' f hf
            refine ⟨by simp [hlen''], ?_, ?_, ?_⟩
            · intro rec hrec
              rcases List.mem_cons.mp hrec with h1 | h2
              · subst h1
                exact hiff.mp rfl
              · exact hfail'' rec h2
            · simp only [runLoop, hstep]
              rw [herr'', herrN rfl]
              simp
            · simpa only [runLoop, hstep] using hterm''
          · intro b hb
            simp only [runLoop, hstep] at hb
            obtain ⟨nl₀, recS, hnl, hBS, hfail₀, herr₀⟩ := hok' b hb
            refine ⟨attemptRecord env attempt rs :: nl₀, recS, by simp [hnl], hBS, ?_, ?_⟩
            · intro rec hrec
              rcases List.mem_cons.mp hrec with h1 | h2
              · subst h1
                exact hiff.mp rfl
              · exact hfail₀ rec h2
            · simp only [runLoop, hstep]
              rw [herr₀, herrN rfl]
              simp

/-- C4: the Proxy Selector never returns a blacklisted proxy; what it
returns is an element of the cached pool that is not in the blacklist; and
it returns none exactly when the pool minus the blacklist is empty. -/
theorem C4_selector_exclusion (s : SysState) (bucket pick : Nat) :
    (∀ p, (get_random_proxy s bucket pick).1 = some p →
      p ∈ (get_cached_proxies s bucket).1 ∧ p ∉ s.blacklist) ∧
    ((get_random_proxy s bucket pick).1 = none ↔
      ((get_cached_proxies s bucket).1).filter (fun p => p ∉ s.blacklist) = []) := by
  have hbl := get_cached_proxies_blacklist s bucket
  unfold get_random_proxy
  dsimp only
  rw [hbl]
  rcases hav : ((get_cached_proxies s bucket).1).filter (fun p => p ∉ s.blacklist)
    with _ | ⟨a, rest⟩
  · simp
  · simp only
    constructor
    · intro p hp
      injection hp with hp
      have hmem : p ∈ (a :: rest) := by
        rw [← hp]
        exact List.get_mem _ _ _
      rw [← hav] at hmem
      have := List.mem_filter.mp hmem
      exact ⟨this.1, by simpa using this.2⟩
    · simp

/-- Witness for C4 at a concrete pool: the selected proxy is in the pool
and not blacklisted. -/
theorem C4_witness : "1.1.1.1:80" ∈ (get_cached_proxies fixturePool 0).1 ∧
    "1.1.1.1:80" ∉ fixturePool.blacklist :=
  (C4_selector_exclusion fixturePool 0 0).1 "1.1.1.1:80" (by decide)

/-- C9: a selection in a bucket with no cache entry performs no fetch (the
selector has no fetch path), stores a fresh empty pool under that bucket,
evicting the previous entry, and returns none; every further selection in
that bucket still returns none and leaves the state unchanged, until a
fetch repopulates the cache. -/
theorem C9_rollover_returns_none (s : SysState) (bucket pick : Nat)
    (hmiss : ∀ l, s.cache ≠ some (bucket, l)) :
    get_random_proxy s bucket pick
      = (none, { s with cache := some (bucket, []) }) ∧
    ∀ pick2, get_random_proxy { s with cache := some (bucket, []) } bucket pick2
      = (none, { s with cache := some (bucket, []) }) := by
  constructor
  · unfold get_random_proxy get_cached_proxies
    rcases hc : s.cache with _ | ⟨t, l⟩
    · simp
    · have ht : t ≠ bucket := by
        intro h
        exact hmiss l (by rw [hc, h])
      simp [ht]
  · intro pick2
    unfold get_random_proxy get_cached_proxies
    simp

/-- Witness for C9: after a rollover from bucket 0 to bucket 1 the
selection returns none and the old pool is evicted. -/
theorem C9_witness : get_random_proxy fixturePool 1 0
    = (none, { fixturePool with cache := some (1, []) }) :=
  (C9_rollover_returns_none fixturePool 1 0 (by intro l h; simp [fixturePool] at h)).1

/-- C7: when the pool must actually be fetched (cache miss for the current
bucket) and the fetch raises, fetch_proxies swallows the exception and
returns the empty sequence; the caller always receives a list. -/
theorem C7_fetch_never_raises (s : SysState) (ts : Nat) (msg : String)
    (hmiss : (get_cached_proxies s ts).1 = []) :
    fetch_proxies s ts (Except.error msg) = ([], (get_cached_proxies s ts).2) := by
  unfold fetch_proxies
  dsimp only
  rw [hmiss]
  simp

/-- Witness for C7 at process start with an unreachable proxy source. -/
theorem C7_witness : fetch_proxies fixtureEmptyCache 0 (Except.error "connection refused")
    = ([], (get_cached_proxies fixtureEmptyCache 0).2) :=
  C7_fetch_never_raises fixtureEmptyCache 0 "connection refused" rfl

/-- C2 (amended): a cache hit on a non-empty stored pool for the current
bucket returns it unchanged, independent of the fetch oracle, and leaves
the state untouched; hence two reads with the same bucket and a non-empty
stored pool return identical sequences. -/
theorem C2_bucket_cache_stability (s : SysState) (bucket : Nat)
    (pool : List Proxy) (hc : s.cache = some (bucket, pool)) (hne : pool ≠ [])
    (fetched : Except String String) :
    fetch_proxies s bucket fetched = (pool, s) := by
  unfold fetch_proxies get_cached_proxies
  rw [hc]
  simp [hne]

/-- Witness for C2 at a concrete non-empty stored pool. -/
theorem C2_witness : fetch_proxies fixturePool 0 (Except.error "down")
    = (["1.1.1.1:80", "2.2.2.2:80", "3.3.3.3:80"], fixturePool) :=
  C2_bucket_cache_stability fixturePool 0 _ rfl (by decide) (Except.error "down")

/-- Counterexample for C2 as stated: for a bucket whose pool was already
fetched and stored as the empty sequence, the next read does not return
the stored pool unchanged: it performs a fresh fetch whose result it
returns (the result depends on the fetch oracle), so two reads in the same
bucket with no intervening refresh can return different sequences. -/
theorem C2_counterexample :
    fixtureStoredEmpty.cache = some (0, []) ∧
    fetch_proxies fixtureStoredEmpty 0 (Except.ok "1.1.1.1:80")
      = (["1.1.1.1:80"], { blacklist := [], cache := some (0, ["1.1.1.1:80"]) }) ∧
    fetch_proxies fixtureStoredEmpty 0 (Except.error "down")
      = ([], fixtureStoredEmpty) := by
  refine ⟨rfl, ?_, ?_⟩ <;> decide

theorem map_stripped_filter (l : List (List Char)) (B : List Proxy) :
    ((l.filter (fun line => stripped line ≠ "" ∧ stripped line ∉ B)).map stripped)
      = (l.map stripped).filter (fun t => t ≠ "" ∧ t ∉ B) := by
  induction l with
  | nil => rfl
  | cons x xs ih =>
      by_cases h : stripped x ≠ "" ∧ stripped x ∉ B <;> simp [h] <;> simpa using ih

/-- C8: on a cache miss with a successful fetch, the fetched pool is
exactly the parsed response body; the parse translated from the code
equals the split-trim-drop-filter pipeline of the spec; and no parsed
proxy is empty or blacklisted at fetch time. -/
theorem C8_fetch_parse (s : SysState) (ts : Nat) (text : String)
    (hmiss : (get_cached_proxies s ts).1 = []) :
    (fetch_proxies s ts (Except.ok text)).1 = parse_proxies text s.blacklist ∧
    parse_proxies text s.blacklist = specFetchedPool text s.blacklist ∧
    ∀ p ∈ parse_proxies text s.blacklist, p ∉ s.blacklist ∧ p ≠ "" := by
  have hbl := get_cached_proxies_blacklist s ts
  refine ⟨?_, ?_, ?_⟩
  · unfold fetch_proxies
    dsimp only
    rw [hmiss, hbl]
    simp
  · unfold parse_proxies specFetchedPool
    exact map_stripped_filter _ _
  · intro p hp
    unfold parse_proxies at hp
    rw [map_stripped_filter] at hp
    have := List.mem_filter.mp hp
    have h2 := of_decide_eq_true this.2
    exact ⟨h2.2, h2.1⟩

/-- Witness for C8: a parsed proxy from a concrete body, with a
blacklisted line and a whitespace line excluded. -/
theorem C8_witness : "1.1.1.1:80" ∉ fixtureBlack.blacklist ∧ "1.1.1.1:80" ≠ "" :=
  (C8_fetch_parse fixtureBlack 0 "1.1.1.1:80\n2.2.2.2:80\n  \n" rfl).2.2
    "1.1.1.1:80" (by decide)

/-- C5: the executor performs at most 3 attempts; a success is returned
immediately at the first decodable-2xx attempt (it is the last record, and
no earlier attempt succeeded); a terminal failure happens exactly after 3
failed attempts.  The return type makes the outcome unique: exactly one
decoded body or one terminal failure. -/
theorem C5_retry_bound {α : Type} (env : Env α) (s : SysState) :
    (make_request_with_proxy env s).2.log.length ≤ 3 ∧
    (∀ b, (make_request_with_proxy env s).1 = Except.ok b →
      ∃ pre recS, (make_request_with_proxy env s).2.log = pre ++ [recS] ∧
        attemptSucceedsB recS.2 = true ∧
        ∀ rec ∈ pre, attemptSucceedsB rec.2 = false) ∧
    (∀ f, (make_request_with_proxy env s).1 = Except.error f →
      (make_request_with_proxy env s).2.log.length = 3 ∧
      ∀ rec ∈ (make_request_with_proxy env s).2.log,
        attemptSucceedsB rec.2 = false) := by
  obtain ⟨nl, hlog, hlen, _, _, _, herr, hok⟩ :=
    runLoop_master env 3 0 { sys := s, errors := [], used_proxies := [], log := [] }
  have hlog' : (make_request_with_proxy env s).2.log = nl := by
    unfold make_request_with_proxy
    simpa using hlog
  refine ⟨?_, ?_, ?_⟩
  · rw [hlog']
    exact hlen
  · intro b hb
    obtain ⟨nl₀, recS, hnl, hBS, hfail₀, _⟩ := hok b hb
    exact ⟨nl₀, recS, by rw [hlog', hnl], hBS, hfail₀⟩
  · intro f hf
    obtain ⟨hlen3, hfail, _, _⟩ := herr f hf
    exact ⟨by rw [hlog', hlen3], fun rec hrec => hfail rec (by rwa [hlog'] at hrec)⟩

/-- Witness for C5: a first-attempt success performs one attempt. -/
theorem C5_witness :
    (make_request_with_proxy envOK fixturePool).2.log.length ≤ 3 ∧
    ∃ pre recS, (make_request_with_proxy envOK fixturePool).2.log = pre ++ [recS] ∧
      attemptSucceedsB recS.2 = true ∧
      ∀ rec ∈ pre, attemptSucceedsB rec.2 = false :=
  ⟨(C5_retry_bound envOK fixturePool).1, (C5_retry_bound envOK fixturePool).2.1 7 rfl⟩

/-- C10: a call of the executor in which no attempt received a 401 while a
proxy was in use leaves the blacklist exactly as it was. -/
theorem C10_blacklist_frame {α : Type} (env : Env α) (s : SysState)
    (h : ∀ rec ∈ (make_request_with_proxy env s).2.log, rec401ViaProxyB rec = false) :
    (make_request_with_proxy env s).2.sys.blacklist = s.blacklist := by
  obtain ⟨nl, hlog, _, _, ⟨extra, hbl, hex⟩, _, _, _⟩ :=
    runLoop_master env 3 0 { sys := s, errors := [], used_proxies := [], log := [] }
  have hlog' : (make_request_with_proxy env s).2.log = nl := by
    unfold make_request_with_proxy
    simpa using hlog
  rcases hx : extra with _ | ⟨q, qs⟩
  · unfold make_request_with_proxy
    rw [hx] at hbl
    simpa using hbl
  · obtain ⟨rec, hrec, _, hB⟩ := hex q (by rw [hx]; exact List.Mem.head _)
    have hfalse := h rec (by rw [hlog']; exact hrec)
    rw [hfalse] at hB
    cases hB

/-- Witness for C10: a first-attempt success leaves the blacklist
unchanged. -/
theorem C10_witness :
    (make_request_with_proxy envOK fixturePool).2.sys.blacklist
      = fixturePool.blacklist := by
  refine C10_blacklist_frame envOK fixturePool ?_
  intro rec hrec
  have hl : (make_request_with_proxy envOK fixturePool).2.log
      = [(some "1.1.1.1:80", AttemptOutcome.resp 200 "" (Except.ok 7))] := rfl
  rw [hl] at hrec
  rcases List.mem_singleton.mp hrec with h
  rw [h]
  rfl

/-- fetch_proxies never changes the blacklist. -/
theorem fetch_proxies_blacklist (s : SysState) (t : Nat) (f : Except String String) :
    ((fetch_proxies s t f).2).blacklist = s.blacklist := by
  unfold fetch_proxies
  dsimp only
  split
  · exact get_cached_proxies_blacklist s t
  · cases f with
    | error msg => exact get_cached_proxies_blacklist s t
    | ok text =>
        show ((get_cached_proxies (cache_clear (get_cached_proxies s t).2) t).2).blacklist
          = s.blacklist
        rw [get_cached_proxies_blacklist]
        show ((get_cached_proxies s t).2).blacklist = s.blacklist
        exact get_cached_proxies_blacklist s t

/-- Each single operation only appends to the blacklist, and only with
proxies of 401-via-proxy attempt records. -/
theorem op_blacklist_extends {α : Type} (op : SysOp α) (s : SysState) :
    ∃ extra, (op.apply s).1.blacklist = s.blacklist ++ extra ∧
      ∀ q ∈ extra, ∃ rec ∈ (op.apply s).2, rec.1 = some q ∧
        rec401ViaProxyB rec = true := by
  cases op with
  | fetchOp b f =>
      exact ⟨[], by simp [SysOp.apply, fetch_proxies_blacklist], by simp⟩
  | selectOp b p =>
      refine ⟨[], ?_, by simp⟩
      show ((get_random_proxy s b p).2).blacklist = s.blacklist ++ []
      rw [get_random_proxy_state, get_cached_proxies_blacklist]
      simp
  | requestOp env =>
      obtain ⟨nl, hlog, _, _, ⟨extra, hbl, hex⟩, _, _, _⟩ :=
        runLoop_master env 3 0 { sys := s, errors := [], used_proxies := [], log := [] }
      refine ⟨extra, by simpa [SysOp.apply, make_request_with_proxy] using hbl, ?_⟩
      intro q hq
      obtain ⟨rec, hrec, hprop⟩ := hex q hq
      refine ⟨rec, ?_, hprop⟩
      show rec ∈ (make_request_with_proxy env s).2.log
      unfold make_request_with_proxy
      rw [show (runLoop env 3 0 { sys := s, errors := [], used_proxies := [], log := [] }).2.log
          = nl by simpa using hlog]
      exact hrec
  | refreshOp b f =>
      refine ⟨[], ?_, by simp⟩
      show ((fetch_proxies (cache_clear s) b f).2).blacklist = s.blacklist ++ []
      rw [fetch_proxies_blacklist]
      simp [cache_clear]

/-- The proxy of every 401-via-proxy attempt record of an operation is in
the blacklist the operation leaves behind. -/
theorem op_401_blacklists {α : Type} (op : SysOp α) (s : SysState) :
    ∀ rec ∈ (op.apply s).2, ∀ p, rec.1 = some p → rec401ViaProxyB rec = true →
      p ∈ (op.apply s).1.blacklist := by
  cases op with
  | fetchOp b f => simp [SysOp.apply]
  | selectOp b p => simp [SysOp.apply]
  | refreshOp b f => simp [SysOp.apply]
  | requestOp env =>
      obtain ⟨nl, hlog, _, _, _, hmem, _, _⟩ :=
        runLoop_master env 3 0 { sys := s, errors := [], used_proxies := [], log := [] }
      intro rec hrec p hp hB
      have hrec' : rec ∈ nl := by
        have : (make_request_with_proxy env s).2.log = nl := by
          unfold make_request_with_proxy
          simpa using hlog
        rw [show ((SysOp.requestOp env).apply s).2 = (make_request_with_proxy env s).2.log
            from rfl, this] at hrec
        exact hrec
      exact hmem rec hrec' p hp hB

/-- Across any sequence of operations, the blacklist only grows. -/
theorem applyOps_blacklist {α : Type} (ops : List (SysOp α)) (s : SysState) :
    ∃ extra, (applyOps ops s).blacklist = s.blacklist ++ extra := by
  induction ops generalizing s with
  | nil => exact ⟨[], by simp [applyOps]⟩
  | cons op rest ih =>
      obtain ⟨e1, h1, _⟩ := op_blacklist_extends op s
      obtain ⟨e2, h2⟩ := ih ((op.apply s).1)
      exact ⟨e1 ++ e2, by rw [applyOps, h2, h1]; simp⟩

/-- C6: across every operation of the system the blacklist is an append
extension of what it was (monotonically non-decreasing, no removal); a
proxy enters it exactly when an attempt routed through that proxy received
an HTTP 401 (both directions); and the growth composes over any sequence
of operations. -/
theorem C6_blacklist_monotone {α : Type} (op : SysOp α) (ops : List (SysOp α))
    (s : SysState) :
    (∃ extra, (op.apply s).1.blacklist = s.blacklist ++ extra ∧
      ∀ q ∈ extra, ∃ rec ∈ (op.apply s).2, rec.1 = some q ∧
        rec401ViaProxyB rec = true) ∧
    (∀ rec ∈ (op.apply s).2, ∀ p, rec.1 = some p → rec401ViaProxyB rec = true →
      p ∈ (op.apply s).1.blacklist) ∧
    (∃ extra2, (applyOps ops s).blacklist = s.blacklist ++ extra2) :=
  ⟨op_blacklist_extends op s, op_401_blacklists op s, applyOps_blacklist ops s⟩

/-- Witness for C6: a proxied 401 attempt puts its proxy in the
blacklist. -/
theorem C6_witness :
    "1.1.1.1:80" ∈ ((SysOp.requestOp env401).apply fixturePool1).1.blacklist := by
  refine (C6_blacklist_monotone (SysOp.requestOp env401) [] fixturePool1).2.1
    (some "1.1.1.1:80", AttemptOutcome.resp 401 "x" (Except.error "y")) ?_
    "1.1.1.1:80" rfl rfl
  have hl : ((SysOp.requestOp env401).apply fixturePool1).2
      = [(some "1.1.1.1:80", AttemptOutcome.resp 401 "x" (Except.error "y")),
         (none, AttemptOutcome.resp 401 "x" (Except.error "y")),
         (none, AttemptOutcome.resp 401 "x" (Except.error "y"))] := rfl
  rw [hl]
  exact List.Mem.head _

/-- Any 401 outcome records an error that passes the substring test. -/
theorem contains401_recordedError_of401 {α : Type}
    (rec : Option Proxy × AttemptOutcome α) (h : is401OutcomeB rec.2 = true) :
    contains401 (recordedError rec) = true := by
  rcases rec with ⟨o, oc⟩
  rcases oc with ⟨st, em, dec⟩ | m
  · have hst : st = 401 := by simpa [is401OutcomeB] using h
    subst hst
    rcases o with _ | p
    · simpa [recordedError] using contains401_msg401NoProxy
    · simpa [recordedError] using contains401_msg401Proxy p
  · simp [is401OutcomeB] at h

/-- C1 (amended): an exhausted run fails with the auth-flavored failure
(carrying the used proxies and all error messages) if and only if every
recorded error message contains the substring "401 Unauthorized" and at
least one proxy was used; in particular a run whose attempts all returned
HTTP 401 - whether through a proxy or on a direct, proxy-less attempt -
with at least one proxy used is auth-flavored, and a run with an error
message lacking the substring (e.g. a transport error) fails generic.
The code tests the message substring, not 401-via-proxy. -/
theorem C1_terminal_classification {α : Type} (env : Env α) (s : SysState)
    (f : Failure) (hf : (make_request_with_proxy env s).1 = Except.error f) :
    (f = Failure.authFailed (make_request_with_proxy env s).2.used_proxies
           (make_request_with_proxy env s).2.errors
       ↔ ((make_request_with_proxy env s).2.errors.all contains401 = true ∧
          (make_request_with_proxy env s).2.used_proxies ≠ [])) ∧
    ((∀ rec ∈ (make_request_with_proxy env s).2.log, is401OutcomeB rec.2 = true) →
      (make_request_with_proxy env s).2.used_proxies ≠ [] →
      f = Failure.authFailed (make_request_with_proxy env s).2.used_proxies
            (make_request_with_proxy env s).2.errors) ∧
    ((∃ rec, rec ∈ (make_request_with_proxy env s).2.log ∧
        contains401 (recordedError rec) = false) →
      f = Failure.allFailed 3 (make_request_with_proxy env s).2.errors) := by
  obtain ⟨nl, hlog, _, _, _, _, herr, _⟩ :=
    runLoop_master env 3 0 { sys := s, errors := [], used_proxies := [], log := [] }
  obtain ⟨_, _, herrs, hterm⟩ := herr f hf
  have hlog' : (make_request_with_proxy env s).2.log = nl := by
    unfold make_request_with_proxy
    simpa using hlog
  have herrs' : (make_request_with_proxy env s).2.errors = nl.map recordedError := by
    unfold make_request_with_proxy
    simpa using herrs
  have hterm' : f = terminalFailure α (make_request_with_proxy env s).2 := hterm
  refine ⟨?_, ?_, ?_⟩
  · rw [hterm']
    unfold terminalFailure
    by_cases hcond : ((make_request_with_proxy env s).2.errors.all contains401 = true ∧
        (make_request_with_proxy env s).2.used_proxies ≠ [])
    · rw [if_pos hcond]
      simp [hcond]
    · rw [if_neg hcond]
      constructor
      · intro h
        exact absurd h (by simp)
      · intro h
        exact absurd h hcond
  · intro h401 hU
    have hall : (make_request_with_proxy env s).2.errors.all contains401 = true := by
      rw [herrs', List.all_eq_true]
      intro e he
      obtain ⟨rec, hrec, hrece⟩ := List.mem_map.mp he
      rw [← hrece]
      exact contains401_recordedError_of401 rec (h401 rec (by rw [hlog']; exact hrec))
    rw [hterm']
    unfold terminalFailure
    rw [if_pos ⟨hall, hU⟩]
  · rintro ⟨rec, hrec, hcf⟩
    have hall : ¬ ((make_request_with_proxy env s).2.errors.all contains401 = true) := by
      rw [herrs']
      intro hforall
      rw [List.all_eq_true] at hforall
      have := hforall (recordedError rec)
        (List.mem_map.mpr ⟨rec, by rw [hlog'] at hrec; exact hrec, rfl⟩)
      rw [hcf] at this
      cases this
    rw [hterm']
    unfold terminalFailure
    rw [if_neg (fun hc => hall hc.1)]

/-- Counterexample for C1 as stated: a run that mixes one 401-via-proxy
attempt with two 401s received on direct, proxy-less attempts (so NOT
every recorded error is a 401-via-proxy error) nevertheless ends in the
auth-flavored failure, not the generic one the claim requires. -/
theorem C1_counterexample :
    (make_request_with_proxy env401 fixturePool1).1
      = Except.error (Failure.authFailed ["1.1.1.1:80"]
          [msg401Proxy "1.1.1.1:80", msg401NoProxy, msg401NoProxy]) ∧
    (none, AttemptOutcome.resp 401 "x" (Except.error "y"))
        ∈ (make_request_with_proxy env401 fixturePool1).2.log ∧
    Failure.authFailed ["1.1.1.1:80"]
        [msg401Proxy "1.1.1.1:80", msg401NoProxy, msg401NoProxy]
      ≠ Failure.allFailed 3
          [msg401Proxy "1.1.1.1:80", msg401NoProxy, msg401NoProxy] := by
  refine ⟨rfl, ?_, by simp⟩
  have hl : (make_request_with_proxy env401 fixturePool1).2.log
      = [(some "1.1.1.1:80", AttemptOutcome.resp 401 "x" (Except.error "y")),
         (none, AttemptOutcome.resp 401 "x" (Except.error "y")),
         (none, AttemptOutcome.resp 401 "x" (Except.error "y"))] := rfl
  rw [hl]
  exact List.Mem.tail _ (List.Mem.head _)

/-- Witness for C1 at a concrete exhausted run: the classification iff
applied at the mixed 401 run. -/
theorem C1_witness :
    Failure.authFailed ["1.1.1.1:80"]
        [msg401Proxy "1.1.1.1:80", msg401NoProxy, msg401NoProxy]
      = Failure.authFailed
          (make_request_with_proxy env401 fixturePool1).2.used_proxies
          (make_request_with_proxy env401 fixturePool1).2.errors :=
  (C1_terminal_classification env401 fixturePool1
      (Failure.authFailed ["1.1.1.1:80"]
        [msg401Proxy "1.1.1.1:80", msg401NoProxy, msg401NoProxy]) rfl).1.mpr
    ⟨by decide, by decide⟩

/-- C3 (amended): every terminal failure of the executor propagates to the
client of GET /user/USERNAME as the same HTTPException, with its own
status code and detail preserved (main.py lines 156-158); that status is
500 for the generic failure but 401 for the auth-flavored failure - the
auth-flavored AllAttemptsExhausted failure does NOT surface as 500. -/
theorem C3_user_route_status {α : Type} (env : Env α) (s : SysState)
    (fb : Nat) (fetched : Except String String) (dataField : α → Except String α)
    (f : Failure)
    (hf : (make_request_with_proxy env (fetch_proxies s fb fetched).2).1
        = Except.error f) :
    (user_info env s fb fetched dataField).1 = Except.error (UserInfoError.http f) ∧
    (UserInfoError.http f).status_code = f.status_code ∧
    (f.status_code = 500 ∨ f.status_code = 401) ∧
    (f.status_code = 401 ↔ ∃ ps errs, f = Failure.authFailed ps errs) := by
  refine ⟨?_, rfl, ?_, ?_⟩
  · unfold user_info get_user_id
    dsimp only
    rcases hp : make_request_with_proxy env (fetch_proxies s fb fetched).2 with ⟨r, rs⟩
    rw [hp] at hf
    dsimp only at hf
    subst hf
    rfl
  · cases f <;> simp [Failure.status_code]
  · cases f with
    | authFailed ps errs =>
        exact ⟨fun _ => ⟨ps, errs, rfl⟩, fun _ => rfl⟩
    | allFailed n errs =>
        constructor
        · intro h
          simp [Failure.status_code] at h
        · rintro ⟨ps, errs2, h⟩
          exact Failure.noConfusion h

/-- Counterexample for C3 as stated: a concrete request whose attempts
all got 401 through a proxy surfaces to the /user route caller with
status 401, not 500. -/
theorem C3_counterexample :
    (user_info env401 fixturePool 0 (Except.error "x") Except.ok).1
      = Except.error (UserInfoError.http (Failure.authFailed
          ["1.1.1.1:80", "2.2.2.2:80", "3.3.3.3:80"]
          [msg401Proxy "1.1.1.1:80", msg401Proxy "2.2.2.2:80",
           msg401Proxy "3.3.3.3:80"])) ∧
    UserInfoError.status_code (UserInfoError.http (Failure.authFailed
          ["1.1.1.1:80", "2.2.2.2:80", "3.3.3.3:80"]
          [msg401Proxy "1.1.1.1:80", msg401Proxy "2.2.2.2:80",
           msg401Proxy "3.3.3.3:80"])) = 401 ∧ (401 : Nat) ≠ 500 := by
  refine ⟨rfl, rfl, by decide⟩

/-- Witness for C3 at a concrete run: the executor failure propagates
unchanged through the route. -/
theorem C3_witness :
    (user_info env401 fixturePool1 0 (Except.error "x") Except.ok).1
      = Except.error (UserInfoError.http (Failure.authFailed ["1.1.1.1:80"]
          [msg401Proxy "1.1.1.1:80", msg401NoProxy, msg401NoProxy])) :=
  (C3_user_route_status env401 fixturePool1 0 (Except.error "x") Except.ok
      (Failure.authFailed ["1.1.1.1:80"]
        [msg401Proxy "1.1.1.1:80", msg401NoProxy, msg401NoProxy]) rfl).1
